import Mathlib

set_option maxRecDepth 100000
set_option maxHeartbeats 1000000

/-!
Verification of the SmartMail email rewriting backend.

The development shallowly embeds the two source modules:

* `model.py` — tone catalog, text transformer, local email composer
  (`rewrite_with_mock` / `generate_new_email` / `rewrite_existing_email` /
  `apply_tone_modifications`), the Groq remote generation client
  (`rewrite_with_groq`), and the backend selector (`rewrite_email`);
* `app.py` — the `/api/generate` request handler (`generate`) and the
  history deletion handler (`delete_history`).

Python strings are embedded as Lean `String`s; the handful of Python string
primitives the code uses (`strip`, `lower`, `split`, `replace`, the `in`
operator, `join`) are re-implemented below as structurally recursive
functions over `String.data`, so every definition evaluates by kernel
reduction.  HTTP traffic and the database are external effects: the remote
call's outcome and a possible database fault are passed in as explicit
parameters, and the history store is threaded through as state.
-/

namespace SmartMail

/-- Python whitespace, as recognised by `str.strip()`. -/
def isPySpace (c : Char) : Bool :=
  c == ' ' || c == '\t' || c == '\n' || c == '\r' || c == '\x0b' || c == '\x0c'

/-- Drop leading and trailing Python whitespace from a character list. -/
def stripChars (l : List Char) : List Char :=
  ((l.dropWhile isPySpace).reverse.dropWhile isPySpace).reverse

/-- Python `s.strip()`: drop leading and trailing whitespace. -/
def pyStrip (s : String) : String :=
  ⟨stripChars s.data⟩

/-- Python `s.lower()` (the source only lowercases ASCII tone names and body text). -/
def pyLower (s : String) : String :=
  ⟨s.data.map Char.toLower⟩

/-- Substring occurrence on character lists, mirroring Python `needle in hay`. -/
def listContains (needle : List Char) : List Char → Bool
  | [] => needle.isEmpty
  | a :: t => List.isPrefixOf needle (a :: t) || listContains needle t

/-- Python `needle in hay` for strings. -/
def substr (needle hay : String) : Bool :=
  listContains needle.data hay.data

/-- Fuelled worker for `pyReplace`; the fuel is the length of the text, which
bounds the number of steps since each step consumes at least one character. -/
def listReplace (pat rep : List Char) : Nat → List Char → List Char
  | 0, l => l
  | _ + 1, [] => []
  | fuel + 1, a :: t =>
    if List.isPrefixOf pat (a :: t) then
      rep ++ listReplace pat rep fuel (t.drop (pat.length - 1))
    else
      a :: listReplace pat rep fuel t

/-- Python `s.replace(pat, rep)`: replace every non-overlapping occurrence,
left to right. -/
def pyReplace (s pat rep : String) : String :=
  ⟨listReplace pat.data rep.data s.data.length s.data⟩

/-- Worker for `pySplitNL`: split a character list at newline characters. -/
def splitLinesAux : List Char → List Char → List (List Char)
  | [], acc => [acc.reverse]
  | c :: t, acc =>
    if c == '\n' then acc.reverse :: splitLinesAux t []
    else splitLinesAux t (c :: acc)

/-- Python `s.split(chr(10))`. -/
def pySplitNL (s : String) : List String :=
  (splitLinesAux s.data []).map String.mk

/-- Python `(chr(10)).join(lines)`. -/
def joinNL : List String → String
  | [] => ""
  | [a] => a
  | a :: b :: t => a ++ "\n" ++ joinNL (b :: t)

/-- A tone's greeting/closing/style triple, one entry of `tone_templates`
in `rewrite_with_mock` (model.py lines 138-179). -/
structure ToneProfile where
  greeting : String
  closing : String
  style : String
deriving DecidableEq, Repr

def formalProfile : ToneProfile :=
  ⟨"Dear Sir/Madam,", "Respectfully yours,", "professional and structured"⟩

def professionalProfile : ToneProfile :=
  ⟨"Hello,", "Best regards,", "clear and business-appropriate"⟩

def casualProfile : ToneProfile :=
  ⟨"Hey there!", "Cheers!", "friendly and relaxed"⟩

def friendlyProfile : ToneProfile :=
  ⟨"Hi!", "Take care!", "warm and approachable"⟩

def persuasiveProfile : ToneProfile :=
  ⟨"Hello,", "Looking forward to your response,", "compelling and action-oriented"⟩

def empatheticProfile : ToneProfile :=
  ⟨"Dear friend,", "With understanding and support,", "compassionate and considerate"⟩

def conciseProfile : ToneProfile :=
  ⟨"Hi,", "Thanks,", "brief and to-the-point"⟩

def apologeticProfile : ToneProfile :=
  ⟨"Dear recipient,", "Sincerely apologetic,", "regretful and understanding"⟩

/-- The keys of the `tone_templates` dictionary. -/
def knownToneNames : List String :=
  ["formal", "professional", "casual", "friendly", "persuasive",
   "empathetic", "concise", "apologetic"]

/-- `tone_templates.get(tone.lower(), tone_templates[quote professional quote])`
(model.py line 182): case-insensitive lookup with the professional profile as
default. -/
def getTemplate (tone : String) : ToneProfile :=
  if pyLower tone = "formal" then formalProfile
  else if pyLower tone = "professional" then professionalProfile
  else if pyLower tone = "casual" then casualProfile
  else if pyLower tone = "friendly" then friendlyProfile
  else if pyLower tone = "persuasive" then persuasiveProfile
  else if pyLower tone = "empathetic" then empatheticProfile
  else if pyLower tone = "concise" then conciseProfile
  else if pyLower tone = "apologetic" then apologeticProfile
  else professionalProfile

/-- `apply_tone_modifications` (model.py lines 292-329): ordered literal
replacements per tone, applied to one line. -/
def apply_tone_modifications (text : String) (tone : String) : String :=
  if pyLower tone = "formal" then
    pyReplace (pyReplace (pyReplace (pyReplace (pyReplace (pyReplace (pyReplace
      text "I\x27m" "I am") "don\x27t" "do not") "can\x27t" "cannot")
      "won\x27t" "will not") "isn\x27t" "is not") "thanks" "thank you")
      "Thanks" "Thank you"
  else if pyLower tone = "casual" then
    pyReplace (pyReplace (pyReplace text "I am writing to" "I wanted to")
      "I would like to" "I\x27d like to") "Thank you very much" "Thanks a lot"
  else if pyLower tone = "persuasive" then
    if ["consider", "opportunity", "benefit", "value"].any
        (fun w => substr w (pyLower text)) then text
    else "I believe " ++ text
  else if pyLower tone = "empathetic" then
    if ["understand", "appreciate", "recognize"].any
        (fun w => substr w (pyLower text)) then text
    else "I understand that " ++ pyLower text
  else if pyLower tone = "concise" then
    ["very", "really", "just", "actually", "basically"].foldl
      (fun t f => pyReplace t (" " ++ f ++ " ") " ") text
  else text

/-- `generate_new_email` (model.py lines 191-257): compose a fresh email from
a description, classifying it by keyword in fixed priority order. -/
def generate_new_email (description : String) (tone : String) (template : ToneProfile) : String :=
  let desc_lower := pyLower description
  let bodyLines : List String :=
    if substr "meeting" desc_lower || substr "schedule" desc_lower then
      (if tone == "formal" || tone == "professional" then
        ["I hope this email finds you well.", "",
         "I am writing to request a meeting to discuss the matters outlined below. Would you be available for a discussion at your earliest convenience?"]
      else
        ["I wanted to reach out and see if we could schedule some time to chat."]) ++
      ["", "Regarding: " ++ description]
    else if substr "thank" desc_lower || substr "appreciate" desc_lower then
      ["I wanted to take a moment to express my sincere gratitude.", "", description, "",
       "Your support has been invaluable."]
    else if substr "follow" desc_lower || substr "update" desc_lower then
      ["I am writing to follow up on our previous correspondence.", "", description, "",
       "I would appreciate any updates you can provide on this matter."]
    else if substr "sorry" desc_lower || substr "apolog" desc_lower then
      ["I am writing to sincerely apologize.", "", description, "",
       "I take full responsibility and will ensure this does not happen again."]
    else
      (if tone == "formal" || tone == "professional" then
        ["I hope this message finds you well.", ""]
      else []) ++ [description, ""] ++
      (if substr "request" desc_lower || substr "need" desc_lower ||
          substr "could you" desc_lower then
        ["I would greatly appreciate your assistance with this matter."]
      else [])
  joinNL ([template.greeting, ""] ++ bodyLines ++ ["", template.closing]) ++
    ("\n\n[✨ Generated in " ++ tone ++ " tone - " ++ template.style ++ "]")

/-- `rewrite_existing_email` (model.py lines 260-289): rewrite an existing
email line by line, prepending a greeting when the first line has none. -/
def rewrite_existing_email (text : String) (tone : String) (template : ToneProfile) : String :=
  let lines := pySplitNL (pyStrip text)
  let first_line := pyLower (lines.headD "")
  let greetLines : List String :=
    if ["hi", "hello", "dear", "hey"].any (fun g => substr g first_line) then []
    else [template.greeting, ""]
  let bodyLines := lines.map
    (fun line => if pyStrip line = "" then line else apply_tone_modifications line tone)
  joinNL (greetLines ++ bodyLines ++ ["", template.closing]) ++
    ("\n\n[✨ Rewritten in " ++ tone ++ " tone - " ++ template.style ++ "]")

/-- `rewrite_with_mock` (model.py lines 126-188): resolve the tone template
and dispatch on the mode. -/
def rewrite_with_mock (text : String) (tone : String) (mode : String) : String :=
  if mode = "write" then generate_new_email text tone (getTemplate tone)
  else rewrite_existing_email text tone (getTemplate tone)

/-- The Python exception class raised: `ValueError` or the generic `Exception`. -/
inductive PyErrorKind where
  | valueError
  | exception
deriving DecidableEq, Repr

/-- A raised Python exception: its class and its message (`str(e)`). -/
structure PyError where
  kind : PyErrorKind
  msg : String
deriving DecidableEq, Repr

/-- Outcome of the external HTTP POST, passed in explicitly.  `response`
carries the status code, `response.text`, and the parsed `choices` list of
the JSON body (`none` when the `choices` field is absent; each element is one
choice's `message.content`). -/
inductive HttpOutcome where
  | timeout
  | transportError (msg : String)
  | response (status : Nat) (bodyText : String) (choices : Option (List String))
deriving DecidableEq, Repr

/-- The `ValueError` of model.py line 32 (missing credential). -/
def groqConfigError : PyError :=
  ⟨.valueError, "Groq API key not found. Set GROQ_API_KEY environment variable."⟩

/-- The exception of model.py line 82 (request timeout). -/
def groqTimeoutError : PyError :=
  ⟨.exception, "Groq API timeout. Please try again."⟩

/-- The exception of model.py line 85 (other transport failure). -/
def groqNetworkError (m : String) : PyError :=
  ⟨.exception, "Network error: " ++ m⟩

/-- The exception of model.py lines 75-79 (non-200 status: the message names
the status code and appends the response body when non-empty). -/
def groqStatusError (status : Nat) (bodyText : String) : PyError :=
  ⟨.exception, "Groq API Error: " ++ toString status ++
    (if bodyText = "" then "" else " - " ++ bodyText)⟩

/-- The exception of model.py line 73 (200 body without a usable choices list). -/
def groqEmptyChoicesError : PyError :=
  ⟨.exception, "No response from Groq API"⟩

/-- `rewrite_with_groq` (model.py lines 19-88): check the credential, map the
HTTP outcome to a raised exception or the first choice's trimmed content. -/
def rewrite_with_groq (apiKey : String) (text tone mode : String) (out : HttpOutcome) :
    Except PyError String :=
  if apiKey = "" then
    .error groqConfigError
  else
    match out with
    | .timeout => .error groqTimeoutError
    | .transportError m => .error (groqNetworkError m)
    | .response status bodyText choices =>
      if status = 200 then
        match choices with
        | some (c :: _) => .ok (pyStrip c)
        | _ => .error groqEmptyChoicesError
      else
        .error (groqStatusError status bodyText)

/-- `rewrite_with_huggingface` (model.py lines 91-123): dead code in the
shipped configuration (`USE_HUGGINGFACE_API` is `False`), modelled for the
backend selector's second branch.  Failures other than a missing key are
swallowed and answered with the mock rewriter. -/
def rewrite_with_huggingface (apiKey : String) (text tone : String) (out : HttpOutcome) :
    Except PyError String :=
  if apiKey = "" then
    .error ⟨.valueError, "Hugging Face API key not found. Set HUGGINGFACE_API_KEY environment variable."⟩
  else
    match out with
    | .response status _ choices =>
      if status = 200 then
        match choices with
        | some (c :: _) => .ok c
        | _ => .ok text
      else .ok (rewrite_with_mock text tone "rewrite")
    | _ => .ok (rewrite_with_mock text tone "rewrite")

/-- model.py line 12. -/
def USE_GROQ_API : Bool := true

/-- model.py line 13. -/
def USE_HUGGINGFACE_API : Bool := false

/-- The environment-supplied credentials (model.py lines 14-15). -/
structure Config where
  groqKey : String
  hfKey : String
deriving DecidableEq, Repr

/-- `rewrite_email` (model.py lines 332-372): validate, then pick the backend;
any exception from the remote client is caught and answered with the mock
composer's output for the same text/tone/mode. -/
def rewrite_email (cfg : Config) (out : HttpOutcome) (text : String) (tone : String)
    (mode : String) : Except PyError String :=
  if pyStrip text = "" then .error ⟨.valueError, "Email text cannot be empty"⟩
  else if (pyStrip text).length < 5 then .error ⟨.valueError, "Email text is too short"⟩
  else if USE_GROQ_API && !(cfg.groqKey == "") then
    match rewrite_with_groq cfg.groqKey text tone mode out with
    | .ok r => .ok r
    | .error _ => .ok (rewrite_with_mock text tone mode)
  else if USE_HUGGINGFACE_API && !(cfg.hfKey == "") then
    match rewrite_with_huggingface cfg.hfKey text tone out with
    | .ok r => .ok r
    | .error _ => .ok (rewrite_with_mock text tone mode)
  else .ok (rewrite_with_mock text tone mode)

/-- One row of the `email_history` table (app.py lines 23-31). -/
structure HistoryRecord where
  id : Nat
  original_text : String
  rewritten_text : String
  tone : String
  timestamp : String
deriving DecidableEq, Repr

/-- The history store: the auto-increment counter and the stored rows. -/
structure Store where
  nextId : Nat
  records : List HistoryRecord
deriving DecidableEq, Repr

/-- `INSERT INTO email_history (original_text, rewritten_text, tone) VALUES (?,?,?)`
with the timestamp defaulting to call time (app.py lines 107-113). -/
def insertHistory (st : Store) (orig rew tone now : String) : Store :=
  ⟨st.nextId + 1, st.records ++ [⟨st.nextId, orig, rew, tone, now⟩]⟩

/-- The parsed JSON body of a `/api/generate` request; each field may be
absent. -/
structure GenRequest where
  text : Option String
  tone : Option String
  save_history : Option Bool
deriving DecidableEq, Repr

/-- The JSON reply of `/api/generate`: an error with its HTTP status, or the
success payload. -/
inductive GenResponse where
  | err (status : Nat) (errorMsg : String)
  | ok (rewritten_text : String) (tone : String) (timestamp : String)
deriving DecidableEq, Repr

/-- The `/api/generate` handler (app.py lines 75-124).  `out` is the outcome
of the remote HTTP call, `now` the current time, and `dbFault` an exception
message raised by the history insert (`none` when the insert succeeds); any
exception is caught by the handler's generic `except` and answered with
status 500 and the message `Server error: str(e)`.  `generateBody` is the
body after the `if not data` check. -/
def generateBody (cfg : Config) (out : HttpOutcome) (now : String) (dbFault : Option String)
    (d : GenRequest) (store : Store) : GenResponse × Store :=
  if pyStrip (d.text.getD "") = "" then (.err 400 "Email text is required", store)
  else if (pyStrip (d.text.getD "")).length < 10 then
    (.err 400 "Email text is too short (minimum 10 characters)", store)
  else if 5000 < (pyStrip (d.text.getD "")).length then
    (.err 400 "Email text is too long (maximum 5000 characters)", store)
  else
    match rewrite_email cfg out (pyStrip (d.text.getD ""))
        (pyStrip (d.tone.getD "professional")) "rewrite" with
    | .error e => (.err 500 ("Server error: " ++ e.msg), store)
    | .ok rw =>
      if d.save_history.getD true then
        match dbFault with
        | some m => (.err 500 ("Server error: " ++ m), store)
        | none =>
          (.ok rw (pyStrip (d.tone.getD "professional")) now,
           insertHistory store (pyStrip (d.text.getD "")) rw
             (pyStrip (d.tone.getD "professional")) now)
      else (.ok rw (pyStrip (d.tone.getD "professional")) now, store)

/-- The full handler: reject a missing JSON body, otherwise run `generateBody`. -/
def generate (cfg : Config) (out : HttpOutcome) (now : String) (dbFault : Option String)
    (data : Option GenRequest) (store : Store) : GenResponse × Store :=
  match data with
  | none => (.err 400 "No data provided", store)
  | some d => generateBody cfg out now dbFault d store

/-- The `/api/history/delete/<id>` handler (app.py lines 127-137): delete the
matching rows (possibly none) and acknowledge success. -/
def delete_history (st : Store) (historyId : Nat) : (Bool × String) × Store :=
  ((true, "Record deleted successfully"),
   ⟨st.nextId, st.records.filter (fun r => !(r.id == historyId))⟩)

/-! ### Helper lemmas -/

theorem generate_some (cfg : Config) (out : HttpOutcome) (now : String)
    (dbFault : Option String) (d : GenRequest) (store : Store) :
    generate cfg out now dbFault (some d) store = generateBody cfg out now dbFault d store :=
  rfl

theorem dropWhile_idem (p : Char → Bool) (l : List Char) :
    List.dropWhile p (List.dropWhile p l) = List.dropWhile p l := by
  induction l with
  | nil => rfl
  | cons a t ih =>
    rw [List.dropWhile_cons]
    by_cases h : p a = true
    · rw [if_pos h]; exact ih
    · rw [if_neg h, List.dropWhile_cons, if_neg h]

theorem dropWhile_head_false (p : Char → Bool) (l : List Char) (a : Char) (t : List Char)
    (h : List.dropWhile p l = a :: t) : p a = false := by
  induction l with
  | nil => simp [List.dropWhile] at h
  | cons b u ih =>
    rw [List.dropWhile_cons] at h
    by_cases hb : p b = true
    · rw [if_pos hb] at h; exact ih h
    · rw [if_neg hb] at h
      cases h
      exact Bool.eq_false_iff.mpr hb

theorem stripChars_idem (l : List Char) : stripChars (stripChars l) = stripChars l := by
  unfold stripChars
  have h1 : List.dropWhile isPySpace (List.dropWhile isPySpace l)
      = List.dropWhile isPySpace l := dropWhile_idem _ l
  have hsplit :
      List.takeWhile isPySpace (List.dropWhile isPySpace l).reverse ++
        List.dropWhile isPySpace (List.dropWhile isPySpace l).reverse
      = (List.dropWhile isPySpace l).reverse :=
    List.takeWhile_append_dropWhile _ _
  have h3 : List.dropWhile isPySpace
      (List.dropWhile isPySpace (List.dropWhile isPySpace l).reverse).reverse
      = (List.dropWhile isPySpace (List.dropWhile isPySpace l).reverse).reverse := by
    have hl1eq : List.dropWhile isPySpace l
        = (List.dropWhile isPySpace (List.dropWhile isPySpace l).reverse).reverse ++
          (List.takeWhile isPySpace (List.dropWhile isPySpace l).reverse).reverse := by
      have h4 := congrArg List.reverse hsplit
      rw [List.reverse_append, List.reverse_reverse] at h4
      exact h4.symm
    cases hc : (List.dropWhile isPySpace (List.dropWhile isPySpace l).reverse).reverse with
    | nil => simp
    | cons a t =>
      have hx : List.dropWhile isPySpace (List.dropWhile isPySpace l)
          = a :: (t ++ (List.takeWhile isPySpace (List.dropWhile isPySpace l).reverse).reverse) := by
        rw [h1]
        conv_lhs => rw [hl1eq, hc]
        exact List.cons_append a t _
      have hpa : isPySpace a = false := dropWhile_head_false _ _ _ _ hx
      rw [List.dropWhile_cons, if_neg (by simp [hpa])]
  rw [h3, List.reverse_reverse, dropWhile_idem]

theorem pyStrip_idem (s : String) : pyStrip (pyStrip s) = pyStrip s :=
  congrArg String.mk (stripChars_idem s.data)

theorem pyStrip_ne_empty_of_length (s : String) (n : Nat) (hn : n ≠ 0)
    (h : (pyStrip s).length = n) : pyStrip s ≠ "" := by
  intro he
  rw [he] at h
  rw [show ("" : String).length = 0 from rfl] at h
  exact hn h.symm

theorem dropWhile_replicate_false (p : Char → Bool) (a : Char) (h : p a = false) (n : Nat) :
    List.dropWhile p (List.replicate n a) = List.replicate n a := by
  cases n with
  | zero => rfl
  | succ m => rw [List.replicate_succ, List.dropWhile_cons, if_neg (by simp [h])]

theorem stripChars_replicate (a : Char) (h : isPySpace a = false) (n : Nat) :
    stripChars (List.replicate n a) = List.replicate n a := by
  unfold stripChars
  rw [dropWhile_replicate_false _ _ h, List.reverse_replicate,
    dropWhile_replicate_false _ _ h, List.reverse_replicate]

theorem pyStrip_mk_replicate (a : Char) (h : isPySpace a = false) (n : Nat) :
    pyStrip (String.mk (List.replicate n a)) = String.mk (List.replicate n a) :=
  congrArg String.mk (stripChars_replicate a h n)

theorem mk_replicate_length (a : Char) (n : Nat) :
    (String.mk (List.replicate n a)).length = n := by
  show (List.replicate n a).length = n
  exact List.length_replicate n a

theorem string_append_empty (s : String) : s ++ "" = s := by
  cases s with
  | mk l => exact congrArg String.mk (List.append_nil l)

theorem string_append_ne_of_incomparable (p1 p2 s1 s2 : String)
    (h1 : List.isPrefixOf p1.data p2.data = false)
    (h2 : List.isPrefixOf p2.data p1.data = false) :
    p1 ++ s1 ≠ p2 ++ s2 := by
  intro h
  have hd : p1.data ++ s1.data = p2.data ++ s2.data := by
    have h3 := congrArg String.data h
    rwa [String.data_append, String.data_append] at h3
  have hp1 : p1.data <+: p2.data ++ s2.data := ⟨s1.data, hd⟩
  have hp2 : p2.data <+: p2.data ++ s2.data := ⟨s2.data, rfl⟩
  rcases List.prefix_or_prefix_of_prefix hp1 hp2 with hc | hc
  · rw [← List.isPrefixOf_iff_prefix] at hc
    rw [hc] at h1
    cases h1
  · rw [← List.isPrefixOf_iff_prefix] at hc
    rw [hc] at h2
    cases h2

theorem string_ne_append_of_incomparable (p1 p2 s2 : String)
    (h1 : List.isPrefixOf p1.data p2.data = false)
    (h2 : List.isPrefixOf p2.data p1.data = false) :
    p1 ≠ p2 ++ s2 := by
  intro h
  apply string_append_ne_of_incomparable p1 p2 "" s2 h1 h2
  rw [string_append_empty]
  exact h

theorem pyError_ne_of_kind (k1 k2 : PyErrorKind) (m1 m2 : String) (h : k1 ≠ k2) :
    PyError.mk k1 m1 ≠ PyError.mk k2 m2 :=
  fun he => h (congrArg PyError.kind he)

theorem pyError_ne_of_msg (k1 k2 : PyErrorKind) (m1 m2 : String) (h : m1 ≠ m2) :
    PyError.mk k1 m1 ≠ PyError.mk k2 m2 :=
  fun he => h (congrArg PyError.msg he)

/-- Post-validation, `rewrite_email` never fails: every remote failure is
absorbed by the fallback. -/
theorem rewrite_email_isOk (cfg : Config) (out : HttpOutcome) (text tone mode : String)
    (hne : pyStrip text ≠ "") (hlen : ¬ (pyStrip text).length < 5) :
    ∃ r, rewrite_email cfg out text tone mode = Except.ok r := by
  unfold rewrite_email
  rw [if_neg hne, if_neg hlen]
  by_cases hk : cfg.groqKey = ""
  · rw [if_neg (by simp [USE_GROQ_API, hk]), if_neg (by simp [USE_HUGGINGFACE_API])]
    exact ⟨_, rfl⟩
  · rw [if_pos (by simp [USE_GROQ_API, hk])]
    cases hg : rewrite_with_groq cfg.groqKey text tone mode out with
    | ok r => exact ⟨r, rfl⟩
    | error e => exact ⟨_, rfl⟩

/-- Shape of a successfully validated `/api/generate` call with no database
fault: the rewritten text comes from `rewrite_email` and the store is
extended exactly when `save_history` is truthy. -/
theorem generate_ok (cfg : Config) (out : HttpOutcome) (now : String) (d : GenRequest)
    (store : Store)
    (h10 : ¬ (pyStrip (d.text.getD "")).length < 10)
    (h5k : ¬ 5000 < (pyStrip (d.text.getD "")).length) :
    ∃ r, rewrite_email cfg out (pyStrip (d.text.getD ""))
        (pyStrip (d.tone.getD "professional")) "rewrite" = Except.ok r
      ∧ generate cfg out now none (some d) store
        = (if d.save_history.getD true then
            (GenResponse.ok r (pyStrip (d.tone.getD "professional")) now,
             insertHistory store (pyStrip (d.text.getD "")) r
               (pyStrip (d.tone.getD "professional")) now)
          else
            (GenResponse.ok r (pyStrip (d.tone.getD "professional")) now, store)) := by
  have hne : pyStrip (d.text.getD "") ≠ "" := by
    intro he
    rw [he] at h10
    exact h10 (by decide)
  have hne2 : pyStrip (pyStrip (d.text.getD "")) ≠ "" := by
    rw [pyStrip_idem]; exact hne
  have hlen2 : ¬ (pyStrip (pyStrip (d.text.getD ""))).length < 5 := by
    rw [pyStrip_idem]; omega
  obtain ⟨r, hr⟩ := rewrite_email_isOk cfg out (pyStrip (d.text.getD ""))
    (pyStrip (d.tone.getD "professional")) "rewrite" hne2 hlen2
  refine ⟨r, hr, ?_⟩
  rw [generate_some]
  unfold generateBody
  rw [if_neg hne, if_neg h10, if_neg h5k, hr]

theorem getTemplate_unknown (s : String) (hs : pyLower s ∉ knownToneNames) :
    getTemplate s = professionalProfile := by
  simp only [knownToneNames, List.mem_cons, List.not_mem_nil, or_false, not_or] at hs
  obtain ⟨h1, h2, h3, h4, h5, h6, h7, h8⟩ := hs
  unfold getTemplate
  rw [if_neg h1, if_neg h2, if_neg h3, if_neg h4, if_neg h5, if_neg h6, if_neg h7, if_neg h8]

/-! ### Claim theorems -/

/-- C4: tone resolution against the fixed set
{formal, professional, casual, friendly, persuasive, empathetic, concise,
apologetic} is case-insensitive — a known name in any letter case yields its
exact greeting/closing/style profile — and every unrecognized string yields
the professional profile.  `getTemplate` is a total function, so resolution
has no failure path. -/
theorem tone_resolution_cases (s : String) :
    (pyLower s = "formal" → getTemplate s = formalProfile)
    ∧ (pyLower s = "professional" → getTemplate s = professionalProfile)
    ∧ (pyLower s = "casual" → getTemplate s = casualProfile)
    ∧ (pyLower s = "friendly" → getTemplate s = friendlyProfile)
    ∧ (pyLower s = "persuasive" → getTemplate s = persuasiveProfile)
    ∧ (pyLower s = "empathetic" → getTemplate s = empatheticProfile)
    ∧ (pyLower s = "concise" → getTemplate s = conciseProfile)
    ∧ (pyLower s = "apologetic" → getTemplate s = apologeticProfile)
    ∧ (pyLower s ∉ knownToneNames → getTemplate s = professionalProfile) := by
  refine ⟨?_, ?_, ?_, ?_, ?_, ?_, ?_, ?_, fun h => getTemplate_unknown s h⟩ <;>
    (intro h; simp only [getTemplate, h]; decide)

/-- C4 witness: `"FORMAL"` resolves case-insensitively to the formal profile
and `"snazzy"` falls back to the professional profile. -/
theorem tone_resolution_cases_witness :
    getTemplate "FORMAL" = formalProfile ∧ getTemplate "snazzy" = professionalProfile :=
  ⟨(tone_resolution_cases "FORMAL").1 (by decide),
   (tone_resolution_cases "snazzy").2.2.2.2.2.2.2.2 (by decide)⟩

/-- C5: for the fixture input with tone `"formal"` in rewrite mode, the output
expands "thanks" to "thank you" (the rules also map the case-sensitive
variant "Thanks" to "Thank you"), prepends no greeting because the first
line "hey," contains the greeting token "hey", and ends with the closing
"Respectfully yours," followed by a bracketed annotation containing
"formal". -/
theorem formal_rewrite_fixture :
    rewrite_with_mock "hey,\ncan you send me that report? need it asap.\nthanks"
        "formal" "rewrite"
      = "hey,\ncan you send me that report? need it asap.\nthank you\n\nRespectfully yours,\n\n[✨ Rewritten in formal tone - professional and structured]"
    ∧ apply_tone_modifications "thanks" "formal" = "thank you"
    ∧ apply_tone_modifications "Thanks" "formal" = "Thank you"
    ∧ substr "thank you"
        (rewrite_with_mock "hey,\ncan you send me that report? need it asap.\nthanks"
          "formal" "rewrite") = true
    ∧ substr "thanks"
        (rewrite_with_mock "hey,\ncan you send me that report? need it asap.\nthanks"
          "formal" "rewrite") = false
    ∧ List.isPrefixOf "hey,".data
        (rewrite_with_mock "hey,\ncan you send me that report? need it asap.\nthanks"
          "formal" "rewrite").data = true
    ∧ substr "Dear Sir/Madam,"
        (rewrite_with_mock "hey,\ncan you send me that report? need it asap.\nthanks"
          "formal" "rewrite") = false
    ∧ List.isSuffixOf
        "Respectfully yours,\n\n[✨ Rewritten in formal tone - professional and structured]".data
        (rewrite_with_mock "hey,\ncan you send me that report? need it asap.\nthanks"
          "formal" "rewrite").data = true
    ∧ substr "formal"
        "[✨ Rewritten in formal tone - professional and structured]" = true := by
  decide

/-- C6: for the description "schedule a team meeting tomorrow at 2pm" in
write mode with tone "professional", the output contains the phrase
"I am writing to request a meeting" and the literal substring
"Regarding: schedule a team meeting tomorrow at 2pm". -/
theorem write_mode_meeting_fixture :
    rewrite_with_mock "schedule a team meeting tomorrow at 2pm" "professional" "write"
      = "Hello,\n\nI hope this email finds you well.\n\nI am writing to request a meeting to discuss the matters outlined below. Would you be available for a discussion at your earliest convenience?\n\nRegarding: schedule a team meeting tomorrow at 2pm\n\nBest regards,\n\n[✨ Generated in professional tone - clear and business-appropriate]"
    ∧ substr "I am writing to request a meeting"
        (rewrite_with_mock "schedule a team meeting tomorrow at 2pm" "professional" "write")
        = true
    ∧ substr "Regarding: schedule a team meeting tomorrow at 2pm"
        (rewrite_with_mock "schedule a team meeting tomorrow at 2pm" "professional" "write")
        = true := by
  decide

/-- C1: past input validation, whenever the remote generation call fails for
any reason (any raised error, HTTP 429 included), the backend selector
returns exactly the local composer's output for the same text, tone and
mode — the remote failure never reaches the caller — and with no credential
configured it goes directly to the local composer. -/
theorem backend_selector_fallback (cfg : Config) (out : HttpOutcome) (text tone mode : String)
    (hne : pyStrip text ≠ "") (hlen : ¬ (pyStrip text).length < 5) :
    (∀ e, rewrite_with_groq cfg.groqKey text tone mode out = Except.error e →
      rewrite_email cfg out text tone mode = Except.ok (rewrite_with_mock text tone mode))
    ∧ (cfg.groqKey = "" →
      rewrite_email cfg out text tone mode = Except.ok (rewrite_with_mock text tone mode)) := by
  constructor
  · intro e he
    unfold rewrite_email
    rw [if_neg hne, if_neg hlen]
    by_cases hk : cfg.groqKey = ""
    · rw [if_neg (by simp [USE_GROQ_API, hk]), if_neg (by simp [USE_HUGGINGFACE_API])]
    · rw [if_pos (by simp [USE_GROQ_API, hk]), he]
  · intro hk
    unfold rewrite_email
    rw [if_neg hne, if_neg hlen, if_neg (by simp [USE_GROQ_API, hk]),
      if_neg (by simp [USE_HUGGINGFACE_API])]

/-- C1 witness: with a credential and the remote call answering HTTP 429,
the selector returns the local composer's output; with no credential it does
too. -/
theorem backend_selector_fallback_witness :
    rewrite_email ⟨"k", ""⟩ (.response 429 "Too Many Requests" none)
        "hello team, the report is ready" "formal" "rewrite"
      = Except.ok (rewrite_with_mock "hello team, the report is ready" "formal" "rewrite")
    ∧ rewrite_email ⟨"", ""⟩ .timeout "hello team, the report is ready" "formal" "rewrite"
      = Except.ok (rewrite_with_mock "hello team, the report is ready" "formal" "rewrite") := by
  constructor
  · exact (backend_selector_fallback ⟨"k", ""⟩ (.response 429 "Too Many Requests" none)
      "hello team, the report is ready" "formal" "rewrite" (by decide) (by decide)).1
      (groqStatusError 429 "Too Many Requests") rfl
  · exact (backend_selector_fallback ⟨"", ""⟩ .timeout
      "hello team, the report is ready" "formal" "rewrite" (by decide) (by decide)).2 rfl

/-- C2: the remote client fails with the missing-credential `ValueError` when
no key is configured, and — with a key — with the status error naming 401 on
HTTP 401, the status error naming 429 on HTTP 429, the timeout error on
request timeout, the network error on other transport failures, and the
status/empty-choices error on any other non-200 status or a body without a
usable choices list; the resulting error values are pairwise distinct.  On
HTTP 200 with a non-empty choices list it returns the first choice's
content, trimmed. -/
theorem groq_client_error_taxonomy (key text tone mode m b : String)
    (choices : Option (List String)) (st : Nat) (out : HttpOutcome)
    (hkey : key ≠ "") :
    (rewrite_with_groq "" text tone mode out = Except.error groqConfigError)
    ∧ (rewrite_with_groq key text tone mode .timeout = Except.error groqTimeoutError)
    ∧ (rewrite_with_groq key text tone mode (.transportError m)
        = Except.error (groqNetworkError m))
    ∧ (rewrite_with_groq key text tone mode (.response 401 b choices)
        = Except.error (groqStatusError 401 b))
    ∧ (rewrite_with_groq key text tone mode (.response 429 b choices)
        = Except.error (groqStatusError 429 b))
    ∧ (st ≠ 200 → rewrite_with_groq key text tone mode (.response st b choices)
        = Except.error (groqStatusError st b))
    ∧ (rewrite_with_groq key text tone mode (.response 200 b none)
        = Except.error groqEmptyChoicesError)
    ∧ (rewrite_with_groq key text tone mode (.response 200 b (some []))
        = Except.error groqEmptyChoicesError)
    ∧ (∀ c rest, rewrite_with_groq key text tone mode (.response 200 b (some (c :: rest)))
        = Except.ok (pyStrip c))
    ∧ groqConfigError ≠ groqTimeoutError
    ∧ groqConfigError ≠ groqNetworkError m
    ∧ groqConfigError ≠ groqStatusError 401 b
    ∧ groqConfigError ≠ groqStatusError 429 b
    ∧ groqConfigError ≠ groqEmptyChoicesError
    ∧ groqTimeoutError ≠ groqNetworkError m
    ∧ groqTimeoutError ≠ groqStatusError 401 b
    ∧ groqTimeoutError ≠ groqStatusError 429 b
    ∧ groqTimeoutError ≠ groqEmptyChoicesError
    ∧ groqNetworkError m ≠ groqStatusError 401 b
    ∧ groqNetworkError m ≠ groqStatusError 429 b
    ∧ groqNetworkError m ≠ groqEmptyChoicesError
    ∧ groqStatusError 401 b ≠ groqStatusError 429 b
    ∧ groqStatusError 401 b ≠ groqEmptyChoicesError
    ∧ groqStatusError 429 b ≠ groqEmptyChoicesError := by
  refine ⟨by simp [rewrite_with_groq], by simp [rewrite_with_groq, hkey],
    by simp [rewrite_with_groq, hkey], by simp [rewrite_with_groq, hkey],
    by simp [rewrite_with_groq, hkey],
    fun hst => by simp [rewrite_with_groq, hkey, hst],
    by simp [rewrite_with_groq, hkey], by simp [rewrite_with_groq, hkey],
    fun c rest => by simp [rewrite_with_groq, hkey],
    by decide,
    ?_, ?_, ?_, by decide, ?_, ?_, ?_, by decide, ?_, ?_, ?_, ?_, ?_, ?_⟩
  · unfold groqConfigError groqNetworkError
    exact pyError_ne_of_kind _ _ _ _ (by decide)
  · unfold groqConfigError groqStatusError
    exact pyError_ne_of_kind _ _ _ _ (by decide)
  · unfold groqConfigError groqStatusError
    exact pyError_ne_of_kind _ _ _ _ (by decide)
  · unfold groqTimeoutError groqNetworkError
    exact pyError_ne_of_msg _ _ _ _
      (string_ne_append_of_incomparable _ _ _ (by decide) (by decide))
  · unfold groqTimeoutError groqStatusError
    exact pyError_ne_of_msg _ _ _ _
      (string_ne_append_of_incomparable _ _ _ (by decide) (by decide))
  · unfold groqTimeoutError groqStatusError
    exact pyError_ne_of_msg _ _ _ _
      (string_ne_append_of_incomparable _ _ _ (by decide) (by decide))
  · unfold groqNetworkError groqStatusError
    exact pyError_ne_of_msg _ _ _ _
      (string_append_ne_of_incomparable _ _ _ _ (by decide) (by decide))
  · unfold groqNetworkError groqStatusError
    exact pyError_ne_of_msg _ _ _ _
      (string_append_ne_of_incomparable _ _ _ _ (by decide) (by decide))
  · unfold groqNetworkError groqEmptyChoicesError
    exact pyError_ne_of_msg _ _ _ _
      (Ne.symm (string_ne_append_of_incomparable _ _ _ (by decide) (by decide)))
  · unfold groqStatusError
    exact pyError_ne_of_msg _ _ _ _
      (string_append_ne_of_incomparable _ _ _ _ (by decide) (by decide))
  · unfold groqStatusError groqEmptyChoicesError
    exact pyError_ne_of_msg _ _ _ _
      (Ne.symm (string_ne_append_of_incomparable _ _ _ (by decide) (by decide)))
  · unfold groqStatusError groqEmptyChoicesError
    exact pyError_ne_of_msg _ _ _ _
      (Ne.symm (string_ne_append_of_incomparable _ _ _ (by decide) (by decide)))

/-- C2 witness: concrete failures of every category and a concrete success
with trimming. -/
theorem groq_client_error_taxonomy_witness :
    rewrite_with_groq "" "send the report please" "formal" "rewrite" .timeout
      = Except.error groqConfigError
    ∧ rewrite_with_groq "k" "send the report please" "formal" "rewrite"
        (.response 429 "rate limited" none) = Except.error (groqStatusError 429 "rate limited")
    ∧ rewrite_with_groq "k" "send the report please" "formal" "rewrite"
        (.response 503 "rate limited" none) = Except.error (groqStatusError 503 "rate limited")
    ∧ rewrite_with_groq "k" "send the report please" "formal" "rewrite"
        (.response 200 "ok" (some ["  Dear team, here it is.  "]))
      = Except.ok "Dear team, here it is."
    ∧ groqStatusError 401 "rate limited" ≠ groqStatusError 429 "rate limited" := by
  obtain ⟨hc, ht, hn, h401, h429, hst, hnone, hempty, hsucc, d1, d2, d3, d4, d5, d6,
      d7, d8, d9, d10, d11, d12, d13, d14, d15⟩ :=
    groq_client_error_taxonomy "k" "send the report please" "formal" "rewrite"
      "boom" "rate limited" none 503 .timeout (by decide)
  refine ⟨hc, h429, hst (by decide), ?_, d13⟩
  obtain ⟨hc2, ht2, hn2, h401b, h429b, hst2, hnone2, hempty2, hsucc2, _, _, _, _, _, _,
      _, _, _, _, _, _, _, _, _⟩ :=
    groq_client_error_taxonomy "k" "send the report please" "formal" "rewrite"
      "boom" "ok" (some ["  Dear team, here it is.  "]) 503 .timeout (by decide)
  exact (hsucc2 "  Dear team, here it is.  " []).trans (congrArg Except.ok (by decide))

/-- C3: the endpoint rejects stripped input of length 9 with a 400 error
naming the minimum bound 10, accepts stripped input of exactly 5000
characters and passes it to generation, and rejects stripped input of length
5001 with a 400 error naming the maximum bound 5000; the standalone
`rewrite_email` additionally rejects empty text and stripped text shorter
than 5 characters with a `ValueError`, before any transformation or remote
call (the rejections hold for every remote outcome `out`). -/
theorem validation_bounds (cfg : Config) (out : HttpOutcome) (now : String)
    (dbFault : Option String) (d : GenRequest) (store : Store) :
    ((pyStrip (d.text.getD "")).length = 9 →
      generate cfg out now dbFault (some d) store
        = (GenResponse.err 400 "Email text is too short (minimum 10 characters)", store))
    ∧ ((pyStrip (d.text.getD "")).length = 5000 → dbFault = none →
      ∃ r, rewrite_email cfg out (pyStrip (d.text.getD ""))
            (pyStrip (d.tone.getD "professional")) "rewrite" = Except.ok r
        ∧ (generate cfg out now dbFault (some d) store).1
            = GenResponse.ok r (pyStrip (d.tone.getD "professional")) now)
    ∧ ((pyStrip (d.text.getD "")).length = 5001 →
      generate cfg out now dbFault (some d) store
        = (GenResponse.err 400 "Email text is too long (maximum 5000 characters)", store))
    ∧ (∀ text tone mode, pyStrip text = "" →
      rewrite_email cfg out text tone mode
        = Except.error ⟨.valueError, "Email text cannot be empty"⟩)
    ∧ (∀ text tone mode, pyStrip text ≠ "" → (pyStrip text).length < 5 →
      rewrite_email cfg out text tone mode
        = Except.error ⟨.valueError, "Email text is too short"⟩) := by
  refine ⟨?_, ?_, ?_, ?_, ?_⟩
  · intro h9
    have hne : pyStrip (d.text.getD "") ≠ "" :=
      pyStrip_ne_empty_of_length _ _ (by decide) h9
    rw [generate_some]
    unfold generateBody
    rw [if_neg hne, if_pos (by omega)]
  · intro h5000 hf
    subst hf
    obtain ⟨r, hr, hg⟩ := generate_ok cfg out now d store (by omega) (by omega)
    refine ⟨r, hr, ?_⟩
    rw [hg]
    by_cases hs : d.save_history.getD true = true
    · rw [if_pos hs]
    · rw [if_neg hs]
  · intro h5001
    have hne : pyStrip (d.text.getD "") ≠ "" :=
      pyStrip_ne_empty_of_length _ _ (by decide) h5001
    rw [generate_some]
    unfold generateBody
    rw [if_neg hne, if_neg (by omega), if_pos (by omega)]
  · intro text tone mode hempty
    unfold rewrite_email
    rw [if_pos hempty]
  · intro text tone mode hne hlt
    unfold rewrite_email
    rw [if_neg hne, if_pos hlt]

/-- C3 witness: a 9-character input is rejected naming the bound 10, a
5000-character input is accepted, a 5001-character input is rejected naming
the bound 5000, and `rewrite_email` rejects blank and 3-character inputs. -/
theorem validation_bounds_witness :
    generate ⟨"", ""⟩ .timeout "2024-01-01" none
        (some ⟨some "123456789", none, none⟩) ⟨0, []⟩
      = (GenResponse.err 400 "Email text is too short (minimum 10 characters)", ⟨0, []⟩)
    ∧ (∃ r, rewrite_email ⟨"", ""⟩ .timeout (pyStrip (String.mk (List.replicate 5000 'a')))
          (pyStrip "professional") "rewrite" = Except.ok r
        ∧ (generate ⟨"", ""⟩ .timeout "2024-01-01" none
            (some ⟨some (String.mk (List.replicate 5000 'a')), none, none⟩) ⟨0, []⟩).1
          = GenResponse.ok r (pyStrip "professional") "2024-01-01")
    ∧ generate ⟨"", ""⟩ .timeout "2024-01-01" none
        (some ⟨some (String.mk (List.replicate 5001 'a')), none, none⟩) ⟨0, []⟩
      = (GenResponse.err 400 "Email text is too long (maximum 5000 characters)", ⟨0, []⟩)
    ∧ rewrite_email ⟨"", ""⟩ .timeout "   " "formal" "rewrite"
      = Except.error ⟨.valueError, "Email text cannot be empty"⟩
    ∧ rewrite_email ⟨"", ""⟩ .timeout "hey" "formal" "rewrite"
      = Except.error ⟨.valueError, "Email text is too short"⟩ := by
  have hv := validation_bounds ⟨"", ""⟩ .timeout "2024-01-01" none
    ⟨some "123456789", none, none⟩ ⟨0, []⟩
  have h5000 : (pyStrip ((GenRequest.mk (some (String.mk (List.replicate 5000 'a')))
      none none).text.getD "")).length = 5000 := by
    rw [show ((GenRequest.mk (some (String.mk (List.replicate 5000 'a'))) none none).text.getD "")
        = String.mk (List.replicate 5000 'a') from rfl]
    rw [pyStrip_mk_replicate 'a' (by decide) 5000]
    exact mk_replicate_length 'a' 5000
  have h5001 : (pyStrip ((GenRequest.mk (some (String.mk (List.replicate 5001 'a')))
      none none).text.getD "")).length = 5001 := by
    rw [show ((GenRequest.mk (some (String.mk (List.replicate 5001 'a'))) none none).text.getD "")
        = String.mk (List.replicate 5001 'a') from rfl]
    rw [pyStrip_mk_replicate 'a' (by decide) 5001]
    exact mk_replicate_length 'a' 5001
  refine ⟨hv.1 (by decide), ?_, ?_, hv.2.2.2.1 "   " "formal" "rewrite" (by decide),
    hv.2.2.2.2 "hey" "formal" "rewrite" (by decide) (by decide)⟩
  · exact (validation_bounds ⟨"", ""⟩ .timeout "2024-01-01" none
      ⟨some (String.mk (List.replicate 5000 'a')), none, none⟩ ⟨0, []⟩).2.1 h5000 rfl
  · exact (validation_bounds ⟨"", ""⟩ .timeout "2024-01-01" none
      ⟨some (String.mk (List.replicate 5001 'a')), none, none⟩ ⟨0, []⟩).2.2.1 h5001

/-- C7 counterexample: an internal fault during the history insert is
answered with HTTP 500, but the error payload embeds the fault's message —
here a filesystem path — verbatim, so the payload is not free of internal
detail. -/
theorem server_error_detail_leak :
    (generate ⟨"", ""⟩ .timeout "2024-01-01"
        (some "unable to open database file /srv/smartmail/database.db")
        (some ⟨some "please review the attached report", none, none⟩) ⟨0, []⟩).1
      = GenResponse.err 500
          "Server error: unable to open database file /srv/smartmail/database.db"
    ∧ substr "/srv/smartmail/database.db"
        "Server error: unable to open database file /srv/smartmail/database.db" = true := by
  constructor
  · decide
  · decide

/-- C7 amended: any unexpected internal fault while handling a validated
generation request is caught and reported with HTTP 500 and the request does
not crash (the store is left unchanged), but the error payload is
"Server error: " followed by the fault's own message, not a generic
detail-free payload. -/
theorem server_error_response (cfg : Config) (out : HttpOutcome) (now m : String)
    (d : GenRequest) (store : Store)
    (h10 : ¬ (pyStrip (d.text.getD "")).length < 10)
    (h5k : ¬ 5000 < (pyStrip (d.text.getD "")).length)
    (hsave : d.save_history.getD true = true) :
    generate cfg out now (some m) (some d) store
      = (GenResponse.err 500 ("Server error: " ++ m), store) := by
  have hne : pyStrip (d.text.getD "") ≠ "" := by
    intro he
    rw [he] at h10
    exact h10 (by decide)
  have hne2 : pyStrip (pyStrip (d.text.getD "")) ≠ "" := by
    rw [pyStrip_idem]; exact hne
  have hlen2 : ¬ (pyStrip (pyStrip (d.text.getD ""))).length < 5 := by
    rw [pyStrip_idem]; omega
  obtain ⟨r, hr⟩ := rewrite_email_isOk cfg out (pyStrip (d.text.getD ""))
    (pyStrip (d.tone.getD "professional")) "rewrite" hne2 hlen2
  rw [generate_some]
  unfold generateBody
  rw [if_neg hne, if_neg h10, if_neg h5k]
  simp [hr, hsave]

/-- C7 witness: a concrete fault message is echoed in the 500 payload. -/
theorem server_error_response_witness :
    generate ⟨"", ""⟩ .timeout "2024-01-01" (some "disk full")
        (some ⟨some "please review the attached report", none, none⟩) ⟨0, []⟩
      = (GenResponse.err 500 "Server error: disk full", ⟨0, []⟩) := by
  have h := server_error_response ⟨"", ""⟩ .timeout "2024-01-01" "disk full"
    ⟨some "please review the attached report", none, none⟩ ⟨0, []⟩
    (by decide) (by decide) (by decide)
  exact h.trans (by decide)

/-- C8: deleting a history record by an identifier that matches no stored
record succeeds with the success acknowledgment and leaves the store
unchanged. -/
theorem delete_history_missing_id (st : Store) (historyId : Nat)
    (h : ∀ r ∈ st.records, r.id ≠ historyId) :
    delete_history st historyId = ((true, "Record deleted successfully"), st) := by
  obtain ⟨n, recs⟩ := st
  have hf : recs.filter (fun r => !(r.id == historyId)) = recs :=
    List.filter_eq_self.mpr (by
      intro a ha
      simpa using h a ha)
  unfold delete_history
  rw [hf]

/-- C8 witness: deleting id 99 from a store holding ids 1 and 2 succeeds and
changes nothing. -/
theorem delete_history_missing_id_witness :
    delete_history ⟨3, [⟨1, "a", "b", "formal", "t1"⟩, ⟨2, "c", "d", "casual", "t2"⟩]⟩ 99
      = ((true, "Record deleted successfully"),
         ⟨3, [⟨1, "a", "b", "formal", "t1"⟩, ⟨2, "c", "d", "casual", "t2"⟩]⟩) :=
  delete_history_missing_id _ 99 (by decide)

/-- C9: for every tone string outside the fixed set, local composition uses
the professional profile (greeting, closing and style), yet the trailing
bracketed annotation — and the tone field returned and persisted by the
generation endpoint — carry the caller's original tone string verbatim, not
the resolved name "professional". -/
theorem unknown_tone_verbatim (s : String) (hs : pyLower s ∉ knownToneNames) :
    getTemplate s = professionalProfile
    ∧ (∀ text, ∃ body, rewrite_with_mock text s "rewrite"
        = body ++ ("\n\n[✨ Rewritten in " ++ s ++ " tone - "
            ++ professionalProfile.style ++ "]"))
    ∧ (∀ text, ∃ body, rewrite_with_mock text s "write"
        = body ++ ("\n\n[✨ Generated in " ++ s ++ " tone - "
            ++ professionalProfile.style ++ "]"))
    ∧ (∀ cfg out now d store, GenRequest.tone d = some s → pyStrip s = s →
        ¬ (pyStrip (d.text.getD "")).length < 10 →
        ¬ 5000 < (pyStrip (d.text.getD "")).length →
        GenRequest.save_history d = none →
        ∃ r, generate cfg out now none (some d) store
          = (GenResponse.ok r s now,
             insertHistory store (pyStrip (d.text.getD "")) r s now)) := by
  have hprof := getTemplate_unknown s hs
  refine ⟨hprof, ?_, ?_, ?_⟩
  · intro text
    unfold rewrite_with_mock
    rw [if_neg (by decide : ¬("rewrite" : String) = "write"), hprof]
    unfold rewrite_existing_email
    exact ⟨_, rfl⟩
  · intro text
    unfold rewrite_with_mock
    rw [if_pos rfl, hprof]
    unfold generate_new_email
    exact ⟨_, rfl⟩
  · intro cfg out now d store htone hstrip h10 h5k hsave
    obtain ⟨r, hr, hg⟩ := generate_ok cfg out now d store h10 h5k
    refine ⟨r, ?_⟩
    rw [hg, htone, hsave,
      show pyStrip ((some s).getD "professional") = s from hstrip]
    exact if_pos rfl

/-- C9 witness: the unknown tone "snarky" resolves to the professional
profile, the annotation names "snarky", and the endpoint returns and
persists "snarky". -/
theorem unknown_tone_verbatim_witness :
    getTemplate "snarky" = professionalProfile
    ∧ (∃ body, rewrite_with_mock "thanks for everything friend" "snarky" "rewrite"
        = body ++ ("\n\n[✨ Rewritten in " ++ "snarky" ++ " tone - "
            ++ professionalProfile.style ++ "]"))
    ∧ (∃ r, generate ⟨"", ""⟩ .timeout "2024-01-01" none
          (some ⟨some "please send the quarterly report", some "snarky", none⟩) ⟨0, []⟩
        = (GenResponse.ok r "snarky" "2024-01-01",
           insertHistory ⟨0, []⟩ (pyStrip "please send the quarterly report") r
             "snarky" "2024-01-01")) := by
  obtain ⟨h1, h2, h3, h4⟩ := unknown_tone_verbatim "snarky" (by decide)
  exact ⟨h1, h2 "thanks for everything friend",
    h4 ⟨"", ""⟩ .timeout "2024-01-01"
      ⟨some "please send the quarterly report", some "snarky", none⟩ ⟨0, []⟩
      rfl (by decide) (by decide) (by decide) rfl⟩

/-- C10: on a validated request with no database fault, the endpoint appends
exactly one history record — the stripped original, the rewritten text, the
tone and the timestamp — if and only if the request's `save_history` field is
not `false`; absent means true.  When `save_history` is `false` the store is
left unchanged. -/
theorem save_history_flag (cfg : Config) (out : HttpOutcome) (now : String)
    (d : GenRequest) (store : Store)
    (h10 : ¬ (pyStrip (d.text.getD "")).length < 10)
    (h5k : ¬ 5000 < (pyStrip (d.text.getD "")).length) :
    (GenRequest.save_history d ≠ some false →
      ∃ r, rewrite_email cfg out (pyStrip (d.text.getD ""))
            (pyStrip (d.tone.getD "professional")) "rewrite" = Except.ok r
        ∧ generate cfg out now none (some d) store
          = (GenResponse.ok r (pyStrip (d.tone.getD "professional")) now,
             insertHistory store (pyStrip (d.text.getD "")) r
               (pyStrip (d.tone.getD "professional")) now)
        ∧ (generate cfg out now none (some d) store).2.records
          = store.records ++ [⟨store.nextId, pyStrip (d.text.getD ""), r,
              pyStrip (d.tone.getD "professional"), now⟩])
    ∧ (GenRequest.save_history d = some false →
      (generate cfg out now none (some d) store).2 = store) := by
  obtain ⟨r, hr, hg⟩ := generate_ok cfg out now d store h10 h5k
  constructor
  · intro hsf
    have hs : d.save_history.getD true = true := by
      cases hd : d.save_history with
      | none => rfl
      | some b =>
        cases b with
        | false => exact absurd hd hsf
        | true => rfl
    exact ⟨r, hr, by rw [hg, if_pos hs], by rw [hg, if_pos hs]; rfl⟩
  · intro hsf
    rw [hg, hsf, if_neg (by decide)]

/-- C10 witness: with `save_history` absent the exchange is appended to the
store; with `save_history = false` the store is unchanged. -/
theorem save_history_flag_witness :
    (∃ r, generate ⟨"", ""⟩ .timeout "2024-01-01" none
        (some ⟨some "please send the quarterly report", none, none⟩) ⟨0, []⟩
      = (GenResponse.ok r (pyStrip "professional") "2024-01-01",
         insertHistory ⟨0, []⟩ (pyStrip "please send the quarterly report") r
           (pyStrip "professional") "2024-01-01"))
    ∧ (generate ⟨"", ""⟩ .timeout "2024-01-01" none
        (some ⟨some "please send the quarterly report", none, some false⟩) ⟨0, []⟩).2
      = ⟨0, []⟩ := by
  constructor
  · obtain ⟨r, hr, hgen, hrec⟩ := (save_history_flag ⟨"", ""⟩ .timeout "2024-01-01"
      ⟨some "please send the quarterly report", none, none⟩ ⟨0, []⟩
      (by decide) (by decide)).1 (by decide)
    exact ⟨r, hgen⟩
  · exact (save_history_flag ⟨"", ""⟩ .timeout "2024-01-01"
      ⟨some "please send the quarterly report", none, some false⟩ ⟨0, []⟩
      (by decide) (by decide)).2 rfl

end SmartMail
